import Mathlib

/-!
# Verification of the pystreamv two-stage formula compiler

Shallow embedding of `pystreamv.py` (formula DSL and Formula→IR compiler)
and `pystreamv_ls_compile.py` (IR→backend compiler with resolver/factory
hooks).  Python floats are modelled as rationals (`ℚ`); every arithmetic
operation the claims exercise is exact in IEEE-754 doubles, so this is
faithful on the inputs considered.  Python exceptions are modelled with
`Except String`; the payload strings name the exception class but error
payloads are not otherwise distinguished.
-/

/-- Python value that can appear in a `ConstantTerm` (`int`, `float` or
`str`); the `int`/`float` distinction is kept because Python keeps it. -/
inductive Value where
  | vint (n : ℤ)
  | vfloat (x : ℚ)
  | vstr (s : String)
deriving DecidableEq, Repr

/-- Python type objects that occur as declared field types. -/
inductive PyType where
  | pfloat
  | pint
  | pstr
  | pbool
  | pclass (name : String)
deriving DecidableEq, Repr

/-- `pystreamv.Unit` (renamed: `Unit` is taken by Lean core): a time unit
with a seconds-per-unit scale. -/
structure TimeUnit where
  name : String
  to_seconds : ℚ
deriving DecidableEq, Repr

/-- `pystreamv.Period`: magnitude + unit (`Period.__init__` coerces the
magnitude with `float(...)`, which `ℚ` absorbs). -/
structure Period where
  value : ℚ
  unit : TimeUnit
deriving DecidableEq, Repr

/-- `Period.to_seconds`. -/
def Period.toSeconds (p : Period) : ℚ := p.value * p.unit.to_seconds

/-- The module-level unit `s = Unit('s', 1.0)`. -/
def unit_s : TimeUnit := ⟨"s", 1⟩

/-- The module-level unit `ms = Unit('ms', 0.001)`. -/
def unit_ms : TimeUnit := ⟨"ms", 1/1000⟩

/-- The module-level unit `m = Unit('m', 60.0)`. -/
def unit_m : TimeUnit := ⟨"m", 60⟩

/-- The module-level unit `h = Unit('h', 3600.0)`. -/
def unit_h : TimeUnit := ⟨"h", 3600⟩

/-- A Python class used as a stream schema.  `id` models object identity
(two distinct classes are distinct dict keys even with equal `__name__`);
`annotations` models the declared field/type pairs that
`InputStream.__init__` reads (from `__annotations__`, a dict literal, or
the class `__dict__` — all three branches yield the declaration list). -/
structure StreamType where
  name : String
  id : ℕ
  annotations : List (String × PyType)
deriving DecidableEq, Repr

/-- `pystreamv.InputStream`: carries its schema class and a reference (an
index into the `Store` below) to its mutable `_fields` dict. -/
structure InputStream where
  type : StreamType
  fieldsRef : ℕ
deriving DecidableEq, Repr

/-- The front-end tree together with the operand kinds accepted by
`CircuitCompiler._compile_operand`.  The first seven constructors are the
`Formula` subclasses of `pystreamv.py` (a Python `Formula` instance); the
remaining six are the non-`Formula` operand kinds that `_compile_operand`
distinguishes with `isinstance` (Period, Unit, int, float, str, and the
opaque external-function case).  `TemporalOp` stores the target separately
from the extra positional `args`, exactly as the Python constructor does. -/
inductive Formula where
  | binaryOp (op : String) (left right : Formula)
  | indexOp (target index : Formula)
  | temporalOp (op : String) (target : Formula) (args : List Formula)
  | fieldAccess (stream : InputStream) (field : String)
  | multiplexFormula (output id_from eos_from : Formula)
  | alwaysOperator (duration condition : Formula)
  | baseFormula (op : String) (args : List Formula)
  | periodOperand (p : Period)
  | unitOperand (u : TimeUnit)
  | intOperand (n : ℤ)
  | floatOperand (x : ℚ)
  | strOperand (s : String)
  | externalOperand (token : String)

/-- True exactly on the constructors that correspond to Python `Formula`
instances (`isinstance(operand, Formula)`). -/
def Formula.isFormulaNode : Formula → Bool
  | .binaryOp .. | .indexOp .. | .temporalOp .. | .fieldAccess ..
  | .multiplexFormula .. | .alwaysOperator .. | .baseFormula .. => true
  | _ => false

/-- The `op` attribute each `Formula` subclass constructor stores
(`IndexOp` stores `'index'`, `FieldAccess` stores `'field_access'`,
`MultiplexFormula` stores `'multiplex'`, `AlwaysOperator` stores
`'always'`).  Non-`Formula` operands have no `op`; they never reach
`CircuitCompiler.visit`, so the value returned for them is irrelevant. -/
def Formula.opOf : Formula → String
  | .binaryOp op _ _ => op
  | .indexOp _ _ => "index"
  | .temporalOp op _ _ => op
  | .fieldAccess _ _ => "field_access"
  | .multiplexFormula _ _ _ => "multiplex"
  | .alwaysOperator _ _ => "always"
  | .baseFormula op _ => op
  | _ => ""

/-- Intermediate circuit representation: `pystreamv.FunctionTerm` and its
leaf subclasses.  The subclasses are separate constructors because
`PystreamvToLSCompiler._compile_node` distinguishes them with
`isinstance`; a plain `FunctionTerm` never matches a leaf check even if
its name is `"source"` etc.  `externalFunctionTerm` stores the `repr` of
the wrapped Python callable, the only part of it the pipeline consumes. -/
inductive IRTerm where
  | functionTerm (function_name : String) (args : List IRTerm)
  | sourceTerm (stream_type : StreamType) (field : String)
  | constantTerm (value : Value)
  | externalFunctionTerm (token : String)
  | periodTerm (period : Period)
  | unitTerm (unit : TimeUnit)

/-- Symbol normalization done at the top of `CircuitCompiler.visit`:
`{'>': 'gt', '<': 'lt', '-': 'sub'}.get(op, op)`. -/
def opKey (op : String) : String :=
  if op = ">" then "gt" else if op = "<" then "lt" else if op = "-" then "sub" else op

/-- The visitor-method suffixes defined on `CircuitCompiler`; `getattr`
falls back to `generic_visit` exactly when `opKey` is not in this list. -/
def visitorTable : List String :=
  ["field_access", "binary_op", "lt", "gt", "sub", "index", "every",
   "last", "always", "multiplex", "global_time", "second"]

mutual
/-- `CircuitCompiler._compile_operand` fused with `CircuitCompiler.visit`.
`_compile_operand` sends every Python `Formula` instance straight to
`visit` (after the no-op `_formula_to_ast` wrapping, which attaches no
children), so the two functions coincide on the seven formula
constructors; the literal constructors are `_compile_operand`'s
`isinstance` leaf cases.  `visit` dispatches on
`opKey (opOf node)` via `getattr(self, f st, generic_visit)`; a handler
whose attribute accesses (`.left`, `.target`, `.stream`, ...) do not
exist on the dispatched node raises `AttributeError`, `args[0]` on an
empty tuple raises `IndexError`, and `generic_visit` returns
`FunctionTerm(op, [])` — its child loop runs over the `FormulaAST`
children, which the pipeline never populates (`add_child` has no caller
and `to_ast`/`_formula_to_ast` build `FormulaAST(formula)` with an empty
child list). -/
def compileOperand : Formula → Except String IRTerm
  | .fieldAccess stream field =>
      -- visit_field_access: SourceTerm(field_access.stream.type, field)
      .ok (.sourceTerm stream.type field)
  | .indexOp target index => do
      -- visit_index (op is always 'index')
      let t ← compileOperand target
      let i ← compileOperand index
      .ok (.functionTerm "index" [t, i])
  | .multiplexFormula output id_from eos_from => do
      -- visit_multiplex (op is always 'multiplex')
      let o ← compileOperand output
      let i ← compileOperand id_from
      let e ← compileOperand eos_from
      .ok (.functionTerm "multiplex" [o, i, e])
  | .alwaysOperator duration condition => do
      -- visit_always (op is always 'always')
      let d ← compileOperand duration
      let c ← compileOperand condition
      .ok (.functionTerm "always" [d, c])
  | .binaryOp op left right =>
      -- BinaryOp has attributes op/left/right; dispatch on the normalized key.
      let key := opKey op
      if key = "lt" ∨ key = "gt" ∨ key = "sub" then do
        let l ← compileOperand left
        let r ← compileOperand right
        .ok (.functionTerm key [l, r])
      else if key = "binary_op" then do
        -- visit_binary_op names the result f'op_{op}' (dead in the DSL,
        -- reachable only when op is literally 'binary_op').
        let l ← compileOperand left
        let r ← compileOperand right
        .ok (.functionTerm ("op_" ++ op) [l, r])
      else if key = "global_time" then .ok (.functionTerm "global_time" [])
      else if key = "second" then .ok (.functionTerm "time_unit_second" [])
      else if key ∈ ["field_access", "index", "every", "last", "always", "multiplex"] then
        -- these handlers read attributes BinaryOp does not have
        .error "AttributeError"
      else .ok (.functionTerm op [])
  | .temporalOp op target args =>
      -- TemporalOp has attributes op/target/args (extra args only).
      let key := opKey op
      if key = "every" then do
        let t ← compileOperand target
        let p ← compileEveryPeriod args
        .ok (.functionTerm "every" [t, p])
      else if key = "last" then do
        let t ← compileOperand target
        .ok (.functionTerm "last" [t])
      else if key = "global_time" then .ok (.functionTerm "global_time" [])
      else if key = "second" then .ok (.functionTerm "time_unit_second" [])
      else if key ∈ ["field_access", "binary_op", "lt", "gt", "sub", "index",
                     "always", "multiplex"] then
        -- these handlers read attributes TemporalOp does not have
        .error "AttributeError"
      else .ok (.functionTerm op [])
  | .baseFormula op _ =>
      -- plain Formula has only op/args; every handler that reads a
      -- subclass attribute raises AttributeError.
      let key := opKey op
      if key = "global_time" then .ok (.functionTerm "global_time" [])
      else if key = "second" then .ok (.functionTerm "time_unit_second" [])
      else if key ∈ ["field_access", "binary_op", "lt", "gt", "sub", "index",
                     "every", "last", "always", "multiplex"] then
        .error "AttributeError"
      else .ok (.functionTerm op [])
  | .periodOperand p => .ok (.periodTerm p)
  | .unitOperand u => .ok (.unitTerm u)
  | .intOperand n => .ok (.constantTerm (.vint n))
  | .floatOperand x => .ok (.constantTerm (.vfloat x))
  | .strOperand s => .ok (.constantTerm (.vstr s))
  | .externalOperand tok => .ok (.externalFunctionTerm tok)

/-- `visit_every`'s `self._compile_operand(temporal_op.args[0])`:
`args[0]` raises `IndexError` on an empty tuple. -/
def compileEveryPeriod : List Formula → Except String IRTerm
  | [] => .error "IndexError"
  | a :: _ => compileOperand a
end

/-- `Formula.compile` (→ `to_ast` → `compile_to_circuit` →
`CircuitCompiler.visit`): the compilation entry point for a formula
tree.  `to_ast` wraps the formula in a childless `FormulaAST`, so this
is `visit`, i.e. `compileOperand` restricted to formula nodes. -/
def Formula.compile (f : Formula) : Except String IRTerm := compileOperand f

/-- A key of the source-map dict handed to `SourceResolver`: either a
stream class object or a class name (`pystreamv_ls_compile.py` documents
both forms). -/
inductive MapKey where
  | byType (t : StreamType)
  | byName (n : String)
deriving DecidableEq, Repr

/-- An insertion-ordered dict `{(stream_type | stream_type_name, field):
backend_node}` as passed to `SourceResolver.__init__`. -/
def SourceMap (B : Type) := List ((MapKey × String) × B)

/-- Python dict lookup on the source map (keys are unique in a dict, so
first-match lookup agrees with it). -/
def SourceMap.lookup {B : Type} (m : SourceMap B) (k : MapKey × String) : Option B :=
  match m with
  | [] => none
  | e :: rest => if e.1 = k then some e.2 else SourceMap.lookup rest k

/-- `SourceResolver.__call__`: try the `(class object, field)` key, then
the `(class __name__, field)` key, else raise `KeyError` (the concrete
ResolutionError of this code base) — never substituting a default. -/
def SourceResolver.call {B : Type} (m : SourceMap B) (st : StreamType) (field : String) :
    Except String B :=
  match m.lookup (.byType st, field) with
  | some v => .ok v
  | none =>
    match m.lookup (.byName st.name, field) with
    | some v => .ok v
    | none => .error "KeyError"

/-- The three caller-supplied hooks of `PystreamvToLSCompiler`:
`resolve_source` (which receives the `SourceTerm`'s
`stream_type`/`field` and may raise), `make_const`, and `make_call`. -/
structure LSHooks (B : Type) where
  resolve_source : StreamType → String → Except String B
  make_const : Value → B
  make_call : String → List B → B

/-- The opcode tuple tested by `fn in (...)` in
`PystreamvToLSCompiler._compile_node`. -/
def recognizedOpcodes : List String :=
  ["lt", "gt", "sub", "index", "last", "every", "always", "multiplex",
   "global_time", "time_unit_second"]

mutual
/-- `PystreamvToLSCompiler._compile_node`.  Leaf subclasses dispatch to
the hooks (a `PeriodTerm` is normalized to a seconds constant HERE, a
`UnitTerm` to its scale, an `ExternalFunctionTerm` to
`make_call("external", [make_const(repr(fn))])`); a composite term whose
`function_name` is in the recognized tuple goes to the per-opcode
dispatch; anything else falls through to
`make_call(fn or "unknown", compiled args)`. -/
def lsCompileNode {B : Type} (hk : LSHooks B) : IRTerm → Except String B
  | .sourceTerm st field => hk.resolve_source st field
  | .constantTerm v => .ok (hk.make_const v)
  | .periodTerm p =>
      -- normalize to seconds constant
      .ok (hk.make_const (.vfloat (p.value * p.unit.to_seconds)))
  | .unitTerm u =>
      -- expose unit scale as constant seconds factor
      .ok (hk.make_const (.vfloat u.to_seconds))
  | .externalFunctionTerm tok =>
      .ok (hk.make_call "external" [hk.make_const (.vstr tok)])
  | .functionTerm fn args =>
      if fn ∈ recognizedOpcodes then lsCompileKnown hk fn args
      else do
        -- Fallback: generic call with compiled args
        let cs ← lsCompileArgs hk args
        .ok (hk.make_call (if fn = "" then "unknown" else fn) cs)

/-- The per-opcode dispatch inside the `fn in (...)` branch of
`_compile_node`: children are translated at fixed positions (`args[i]`
out of range raises `IndexError`, surplus args are ignored).  The final
branch is unreachable because the ten cases cover the recognized tuple
exactly, so Python's fall-through to the generic line cannot trigger
from here. -/
def lsCompileKnown {B : Type} (hk : LSHooks B) (fn : String) (args : List IRTerm) :
    Except String B :=
  if fn = "every" then
    match args with
    | a :: b :: _ => do
        let t ← lsCompileNode hk a
        let p ← lsCompileNode hk b
        .ok (hk.make_call "every" [t, p])
    | [a] => do
        let _ ← lsCompileNode hk a
        .error "IndexError"
    | [] => .error "IndexError"
  else if fn = "always" then
    match args with
    | a :: b :: _ => do
        let d ← lsCompileNode hk a
        let c ← lsCompileNode hk b
        .ok (hk.make_call "always" [d, c])
    | [a] => do
        let _ ← lsCompileNode hk a
        .error "IndexError"
    | [] => .error "IndexError"
  else if fn = "last" then
    match args with
    | a :: _ => do
        let t ← lsCompileNode hk a
        .ok (hk.make_call "last" [t])
    | [] => .error "IndexError"
  else if fn = "index" then
    match args with
    | a :: b :: _ => do
        let t ← lsCompileNode hk a
        let i ← lsCompileNode hk b
        .ok (hk.make_call "index" [t, i])
    | [a] => do
        let _ ← lsCompileNode hk a
        .error "IndexError"
    | [] => .error "IndexError"
  else if fn = "lt" ∨ fn = "gt" ∨ fn = "sub" then
    match args with
    | a :: b :: _ => do
        let l ← lsCompileNode hk a
        let r ← lsCompileNode hk b
        .ok (hk.make_call fn [l, r])
    | [a] => do
        let _ ← lsCompileNode hk a
        .error "IndexError"
    | [] => .error "IndexError"
  else if fn = "multiplex" then
    match args with
    | a :: b :: c :: _ => do
        let o ← lsCompileNode hk a
        let i ← lsCompileNode hk b
        let e ← lsCompileNode hk c
        .ok (hk.make_call "multiplex" [o, i, e])
    | [a, b] => do
        let _ ← lsCompileNode hk a
        let _ ← lsCompileNode hk b
        .error "IndexError"
    | [a] => do
        let _ ← lsCompileNode hk a
        .error "IndexError"
    | [] => .error "IndexError"
  else if fn = "global_time" then .ok (hk.make_call "global_time" [])
  else if fn = "time_unit_second" then .ok (hk.make_const (.vfloat 1))
  else .error "unreachable"

/-- The `[self._compile_node(a) for a in args]` comprehension of the
fallback branch. -/
def lsCompileArgs {B : Type} (hk : LSHooks B) : List IRTerm → Except String (List B)
  | [] => .ok []
  | a :: rest => do
      let c ← lsCompileNode hk a
      let cs ← lsCompileArgs hk rest
      .ok (c :: cs)
end

/-- The backend node type produced by the default factories:
`default_make_call` yields an `ls.FunctionTerm` with a name and an
attached args list; `default_make_const` yields one named `'const'`
carrying the value. -/
inductive LSNode where
  | call (name : String) (args : List LSNode)
  | constN (value : Value)

/-- `PystreamvToLSCompiler.__init__` with the default factories. -/
def defaultHooks (resolve : StreamType → String → Except String LSNode) : LSHooks LSNode :=
  ⟨resolve, .constN, .call⟩

/-- `compile_to_ls(root, source_map=m)`: a `SourceResolver` over `m`
plus the default factories. -/
def compile_to_ls (m : SourceMap LSNode) (root : IRTerm) : Except String LSNode :=
  lsCompileNode (defaultHooks (SourceResolver.call m)) root

/-- The whole pipeline: `Formula.compile` then `compile_to_ls`. -/
def pipeline (m : SourceMap LSNode) (f : Formula) : Except String LSNode := do
  let ir ← Formula.compile f
  compile_to_ls m ir

/-! ## Mutable `_fields` dicts

`InputStream.__init__` creates a fresh `_fields` dict and
`TimestampedStream.__init__` mutates its own copy while only reading the
original's.  To state the frame effect we model Python dicts as
insertion-ordered association lists held in a heap (`Store`) indexed by
allocation order; each `InputStream` holds a reference to its dict. -/

/-- A Python `dict[str, type]` as an insertion-ordered association list. -/
abbrev FieldDict := List (String × PyType)

/-- Heap of `_fields` dicts; a reference is an index, allocation appends. -/
abbrev Store := List FieldDict

/-- `key in dict`. -/
def dictHasKey (d : FieldDict) (k : String) : Bool := d.any (fun p => p.1 = k)

/-- `dict[k] = v`: overwrite in place keeping position, else append. -/
def dictSet (d : FieldDict) (k : String) (v : PyType) : FieldDict :=
  if dictHasKey d k then d.map (fun p => if p.1 = k then (k, v) else p) else d ++ [(k, v)]

/-- `dict.update(other)`: `dict[k] = v` for each entry of `other` in order. -/
def dictUpdate (d other : FieldDict) : FieldDict :=
  other.foldl (fun acc kv => dictSet acc kv.1 kv.2) d

/-- Dereference a dict reference. -/
def readRef (σ : Store) (r : ℕ) : FieldDict := σ.getD r []

/-- Overwrite the dict behind a reference. -/
def writeRef (σ : Store) (r : ℕ) (d : FieldDict) : Store := σ.set r d

/-- `InputStream.__init__(type)`: allocate `self._fields` and fill it with
the declared field/type pairs in declaration order (all three declaration
branches — `__annotations__`, dict literal, class `__dict__` — produce
that list). -/
def InputStream.init (σ : Store) (t : StreamType) : Store × InputStream :=
  (σ ++ [t.annotations], ⟨t, σ.length⟩)

/-- `TimestampedStream.__init__(original_stream)`:
`super().__init__(original_stream.type)` allocates a fresh dict from the
schema, `self._fields.update(original_stream._fields)` copies the
original's entries into it (reading the original only), and
`self._fields['time'] = float` adds the time field.  (The instance also
stores `self._original` and a `time` `FieldAccess`; neither touches any
dict.) -/
def TimestampedStream.init (σ : Store) (orig : InputStream) : Store × InputStream :=
  let r := σ.length
  let σ₁ := σ ++ [orig.type.annotations]
  let σ₂ := writeRef σ₁ r (dictUpdate (readRef σ₁ r) (readRef σ₁ orig.fieldsRef))
  let σ₃ := writeRef σ₂ r (dictSet (readRef σ₂ r) "time" .pfloat)
  (σ₃, ⟨orig.type, r⟩)

/-- `pystreamv.timestamp(stream)`. -/
def timestamp (σ : Store) (stream : InputStream) : Store × InputStream :=
  TimestampedStream.init σ stream

/-- `InputStream.__getattr__(name)`: a declared field gives a
`FieldAccess(self, name)` node, anything else raises `AttributeError`. -/
def InputStream.getattr (σ : Store) (st : InputStream) (name : String) :
    Except String Formula :=
  if dictHasKey (readRef σ st.fieldsRef) name then .ok (.fieldAccess st name)
  else .error "AttributeError"


/-! ## Helper observers and concrete fixtures -/

/-- Whether an IR node is a `ConstantTerm` leaf. -/
def IRTerm.isConstantTerm : IRTerm → Bool
  | .constantTerm _ => true
  | _ => false

/-- `Formula.__getitem__(index)`: builds `IndexOp(self, index)` with no
validation of the offset. -/
def Formula.getitem (f : Formula) (index : ℤ) : Formula :=
  .indexOp f (.intOperand index)

/-- `Formula.__gt__`. -/
def Formula.gtOp (f other : Formula) : Formula := .binaryOp ">" f other

/-- `Formula.__lt__`. -/
def Formula.ltOp (f other : Formula) : Formula := .binaryOp "<" f other

/-- `Formula.__sub__`. -/
def Formula.subOp (f other : Formula) : Formula := .binaryOp "-" f other

/-- `Formula.every(period)`. -/
def Formula.every (f : Formula) (period : Formula) : Formula :=
  .temporalOp "every" f [period]

/-- `Formula.last()`. -/
def Formula.lastOp (f : Formula) : Formula := .temporalOp "last" f []

/-- `GLOBAL.time`, i.e. `Formula('global_time')`. -/
def globalTime : Formula := .baseFormula "global_time" []

/-- A schema with a float `time` field, standing for the timestamped
intruder stream of the end-to-end scenario. -/
def IntruderTimed : StreamType := ⟨"IntruderTimed", 0, [("time", .pfloat)]⟩

/-- A stream over `IntruderTimed`. -/
def intruderStream : InputStream := ⟨IntruderTimed, 0⟩

/-- The backend source node the resolver returns for `(stream, "time")`
in the end-to-end scenario. -/
def source_time : LSNode := .call "source" [.constN (.vstr "time")]

/-- Source map for the end-to-end scenario: `(stream class, "time") ↦
source(time)`. -/
def e2eMap : SourceMap LSNode := [((.byType IntruderTimed, "time"), source_time)]

/-- The end-to-end formula
`(FieldAccess(stream,"time").last() - GlobalTime > 10).every(10*s)`. -/
def e2eFormula : Formula :=
  (((Formula.fieldAccess intruderStream "time").lastOp.subOp globalTime).gtOp
    (.intOperand 10)).every (.periodOperand ⟨10, unit_s⟩)

/-- A resolver that knows no sources (raises on every `SourceTerm`). -/
def noResolve : StreamType → String → Except String LSNode :=
  fun _ _ => .error "KeyError"

/-- The repo test's schema `IntruderType` with `lat`/`lon`/`id`. -/
def IntruderType : StreamType :=
  ⟨"IntruderType", 1, [("lat", .pfloat), ("lon", .pfloat), ("id", .pint)]⟩

/-- A schema used by the resolver-order witness. -/
def wSchema : StreamType := ⟨"W", 7, []⟩

/-- A source map holding both an identity key and name keys for `wSchema`,
to exhibit the lookup order. -/
def wMap : SourceMap LSNode :=
  [((.byType wSchema, "f"), .constN (.vint 1)),
   ((.byName "W", "f"), .constN (.vint 2)),
   ((.byName "W", "g"), .constN (.vint 3))]
/-! ### Store lemmas -/

theorem readRef_append_self (σ : Store) (d : FieldDict) :
    readRef (σ ++ [d]) σ.length = d := by
  induction σ with
  | nil => rfl
  | cons x xs ih => simp [readRef, List.getD]

theorem readRef_append_lt (σ : Store) (d : FieldDict) (r : ℕ) (h : r < σ.length) :
    readRef (σ ++ [d]) r = readRef σ r := by
  induction σ generalizing r with
  | nil => simp at h
  | cons x xs ih =>
    cases r with
    | zero => rfl
    | succ n =>
      have : n < xs.length := by simpa using h
      simpa [readRef, List.getD] using ih n this

theorem readRef_writeRef_self (σ : Store) (r : ℕ) (d : FieldDict) (h : r < σ.length) :
    readRef (writeRef σ r d) r = d := by
  induction σ generalizing r with
  | nil => simp at h
  | cons x xs ih =>
    cases r with
    | zero => rfl
    | succ n =>
      have : n < xs.length := by simpa using h
      simpa [readRef, writeRef, List.getD] using ih n this

theorem readRef_writeRef_ne (σ : Store) (r r' : ℕ) (d : FieldDict) (h : r ≠ r') :
    readRef (writeRef σ r d) r' = readRef σ r' := by
  induction σ generalizing r r' with
  | nil => rfl
  | cons x xs ih =>
    cases r with
    | zero =>
      cases r' with
      | zero => exact absurd rfl h
      | succ n => rfl
    | succ m =>
      cases r' with
      | zero => rfl
      | succ n =>
        have : m ≠ n := fun e => h (by rw [e])
        simpa [readRef, writeRef, List.getD] using ih m n this

theorem writeRef_length (σ : Store) (r : ℕ) (d : FieldDict) :
    (writeRef σ r d).length = σ.length := by
  simp [writeRef]

/-! ### Dict lemmas -/

theorem dictSet_mem_self (d : FieldDict) (k : String) (v : PyType)
    (hnd : (d.map Prod.fst).Nodup) (hmem : (k, v) ∈ d) : dictSet d k v = d := by
  have hkey : dictHasKey d k = true := by
    simp only [dictHasKey, List.any_eq_true]
    exact ⟨(k, v), hmem, by simp⟩
  -- nodup keys force any entry with key k to be (k, v) itself
  have huniq : ∀ p ∈ d, p.1 = k → p = (k, v) := fun p hp hpk =>
    List.inj_on_of_nodup_map hnd hp hmem (by simpa using hpk)
  simp only [dictSet, hkey, if_true]
  clear hkey hmem hnd
  induction d with
  | nil => rfl
  | cons q rest ih =>
    simp only [List.map_cons, List.cons.injEq]
    constructor
    · by_cases hq : q.1 = k
      · rw [if_pos hq, huniq q (by simp) hq]
      · rw [if_neg hq]
    · exact ih (fun p hp hpk => huniq p (by simp [hp]) hpk)

theorem dictUpdate_subset (d : FieldDict) (hnd : (d.map Prod.fst).Nodup) :
    ∀ other : FieldDict, (∀ p ∈ other, p ∈ d) → dictUpdate d other = d := by
  intro other
  induction other with
  | nil => intro _; rfl
  | cons kv rest ih =>
    intro hsub
    have h1 : dictSet d kv.1 kv.2 = d :=
      dictSet_mem_self d kv.1 kv.2 hnd (by simpa using hsub kv (by simp))
    have : dictUpdate d (kv :: rest) = dictUpdate (dictSet d kv.1 kv.2) rest := rfl
    rw [this, h1]
    exact ih (fun p hp => hsub p (by simp [hp]))

theorem dictUpdate_self (d : FieldDict) (hnd : (d.map Prod.fst).Nodup) :
    dictUpdate d d = d :=
  dictUpdate_subset d hnd d (fun _ hp => hp)

theorem dictSet_new_key (d : FieldDict) (k : String) (v : PyType)
    (h : dictHasKey d k = false) : dictSet d k v = d ++ [(k, v)] := by
  simp [dictSet, h]


theorem dictHasKey_iff (d : FieldDict) (k : String) :
    dictHasKey d k = true ↔ k ∈ d.map Prod.fst := by
  simp [dictHasKey, List.any_eq_true, List.mem_map]

/-! ## Claims -/

/-- C2 (confirmed): for
`(FieldAccess(stream,"time").last() - GlobalTime > 10).every(10*s)` and a
source resolver mapping `(stream, "time")` to `source(time)`, the full
pipeline (Formula→IR compile, then IR→backend translate with the default
factories) yields exactly
`every(gt(sub(last(source(time)), global_time), const(10)), const(10.0))`
— this shape, this child order, with the comparison bound kept as the int
`10` and the period normalized to the float `10.0`. -/
theorem end_to_end_every_stale_formula :
    pipeline e2eMap e2eFormula =
      .ok (.call "every"
        [.call "gt"
          [.call "sub" [.call "last" [source_time], .call "global_time" []],
           .constN (.vint 10)],
         .constN (.vfloat 10)]) := by
  have h : (10 : ℚ) * 1 = 10 := mul_one 10
  calc pipeline e2eMap e2eFormula
      = .ok (.call "every"
          [.call "gt"
            [.call "sub" [.call "last" [source_time], .call "global_time" []],
             .constN (.vint 10)],
           .constN (.vfloat ((10 : ℚ) * 1))]) := rfl
    _ = _ := by rw [h]

/-- C1 counterexample: compiling `every(global_time, Period(10, m))` in
the Formula→IR stage yields an `every` IR node whose SECOND CHILD is the
raw `PeriodTerm(10, m)` — a magnitude+unit pair, not a `Constant` holding
the value in seconds.  This refutes the claim that the Period→seconds
normalization happens in the Formula→IR stage and that the IR→backend
stage never sees a raw magnitude+unit pair. -/
theorem every_period_second_child_not_constant_in_ir :
    Formula.compile ((globalTime).every (.periodOperand ⟨10, unit_m⟩))
      = .ok (.functionTerm "every"
          [.functionTerm "global_time" [], .periodTerm ⟨10, unit_m⟩])
    ∧ IRTerm.isConstantTerm (.periodTerm ⟨10, unit_m⟩) = false :=
  ⟨rfl, rfl⟩

/-- C1 (amended): unit normalization (Period→seconds) happens exactly
once, but in the IR→backend stage, not the Formula→IR stage: under
`every(target, p)` the Formula→IR compiler emits the raw
`PeriodTerm(p)` as second child, and the IR→backend compiler maps that
leaf to `makeConstant(p.value * p.unit.to_seconds)` — `10` seconds give
`Constant(10.0)`, `10` minutes give `Constant(600.0)` — so the backend
(rather than the IR) never sees a raw magnitude+unit pair. -/
theorem period_normalization_in_backend_stage
    {B : Type} (hk : LSHooks B) (p : Period) (target : Formula) (t' : IRTerm)
    (h : compileOperand target = .ok t') :
    Formula.compile (target.every (.periodOperand p))
      = .ok (.functionTerm "every" [t', .periodTerm p])
    ∧ lsCompileNode hk (.periodTerm p)
      = .ok (hk.make_const (.vfloat (p.value * p.unit.to_seconds)))
    ∧ lsCompileNode hk (.periodTerm ⟨10, unit_s⟩)
      = .ok (hk.make_const (.vfloat 10))
    ∧ lsCompileNode hk (.periodTerm ⟨10, unit_m⟩)
      = .ok (hk.make_const (.vfloat 600)) := by
  refine ⟨?_, rfl, ?_, ?_⟩
  · have h1 : Formula.compile (target.every (.periodOperand p)) =
        Except.bind (compileOperand target) (fun t =>
          Except.ok (IRTerm.functionTerm "every" [t, .periodTerm p])) := rfl
    rw [h1, h]
    rfl
  · show Except.ok (hk.make_const (.vfloat ((10 : ℚ) * 1)))
        = Except.ok (hk.make_const (.vfloat 10))
    rw [mul_one]
  · show Except.ok (hk.make_const (.vfloat ((10 : ℚ) * 60)))
        = Except.ok (hk.make_const (.vfloat 600))
    norm_num

/-- Witness for C1's amended theorem at `target = GlobalTime`,
`p = Period(10, s)`. -/
theorem period_normalization_in_backend_stage_witness :
    Formula.compile ((globalTime).every (.periodOperand ⟨10, unit_s⟩))
      = .ok (.functionTerm "every"
          [.functionTerm "global_time" [], .periodTerm ⟨10, unit_s⟩])
    ∧ lsCompileNode (defaultHooks noResolve) (.periodTerm ⟨10, unit_s⟩)
      = .ok (.constN (.vfloat ((10 : ℚ) * 1)))
    ∧ lsCompileNode (defaultHooks noResolve) (.periodTerm ⟨10, unit_s⟩)
      = .ok (.constN (.vfloat 10))
    ∧ lsCompileNode (defaultHooks noResolve) (.periodTerm ⟨10, unit_m⟩)
      = .ok (.constN (.vfloat 600)) :=
  period_normalization_in_backend_stage (defaultHooks noResolve)
    ⟨10, unit_s⟩ globalTime (.functionTerm "global_time" []) rfl

/-- C3 counterexample: an unknown-operator node WITH an operand —
`Formula('custom_agg', Formula('global_time'))` — compiles to a fallback
IR call node with NO children: the operand is dropped, not recursively
compiled (the `FormulaAST` wrapper never receives children, and
`generic_visit` does not consult `Formula.args`), refuting "whose
children are the recursively compiled children of the node". -/
theorem unknown_op_children_dropped_cex :
    Formula.compile (.baseFormula "custom_agg" [globalTime])
      = .ok (.functionTerm "custom_agg" [])
    ∧ IRTerm.functionTerm "custom_agg" []
        ≠ .functionTerm "custom_agg" [.functionTerm "global_time" []] := by
  refine ⟨rfl, ?_⟩
  simp

/-- C3 (amended): the Formula→IR compiler is total over formula kinds —
for every `FormulaNode` whose (normalized) operator kind has no visitor
method, compilation does not fail but returns a generic fallback IR call
node tagged with that node's own operator name and with an EMPTY child
list: the node's operands are discarded because the `FormulaAST` handed
to `generic_visit` never carries children. -/
theorem unknown_op_generic_fallback_no_children (f : Formula)
    (hf : f.isFormulaNode = true) (h : opKey f.opOf ∉ visitorTable) :
    Formula.compile f = .ok (.functionTerm f.opOf []) := by
  cases f with
  | fieldAccess stream field =>
      simp only [Formula.opOf] at h
      exact absurd (by decide) h
  | indexOp target index =>
      simp only [Formula.opOf] at h
      exact absurd (by decide) h
  | multiplexFormula o i e =>
      simp only [Formula.opOf] at h
      exact absurd (by decide) h
  | alwaysOperator d c =>
      simp only [Formula.opOf] at h
      exact absurd (by decide) h
  | periodOperand p => simp [Formula.isFormulaNode] at hf
  | unitOperand u => simp [Formula.isFormulaNode] at hf
  | intOperand n => simp [Formula.isFormulaNode] at hf
  | floatOperand x => simp [Formula.isFormulaNode] at hf
  | strOperand s => simp [Formula.isFormulaNode] at hf
  | externalOperand tok => simp [Formula.isFormulaNode] at hf
  | binaryOp op l r =>
      simp only [Formula.opOf] at h ⊢
      simp only [visitorTable, List.mem_cons, List.not_mem_nil, or_false,
        not_or] at h
      obtain ⟨h1, h2, h3, h4, h5, h6, h7, h8, h9, h10, h11, h12⟩ := h
      simp [Formula.compile, compileOperand, h1, h2, h3, h4, h5, h6, h7,
        h8, h9, h10, h11, h12]
  | temporalOp op target args =>
      simp only [Formula.opOf] at h ⊢
      simp only [visitorTable, List.mem_cons, List.not_mem_nil, or_false,
        not_or] at h
      obtain ⟨h1, h2, h3, h4, h5, h6, h7, h8, h9, h10, h11, h12⟩ := h
      simp [Formula.compile, compileOperand, h1, h2, h3, h4, h5, h6, h7,
        h8, h9, h10, h11, h12]
  | baseFormula op args =>
      simp only [Formula.opOf] at h ⊢
      simp only [visitorTable, List.mem_cons, List.not_mem_nil, or_false,
        not_or] at h
      obtain ⟨h1, h2, h3, h4, h5, h6, h7, h8, h9, h10, h11, h12⟩ := h
      simp [Formula.compile, compileOperand, h1, h2, h3, h4, h5, h6, h7,
        h8, h9, h10, h11, h12]

/-- Witness for C3's amended theorem at the repo's own unknown operator
`Formula('distance_stream')`. -/
theorem unknown_op_generic_fallback_no_children_witness :
    Formula.compile (.baseFormula "distance_stream" [])
      = .ok (.functionTerm "distance_stream" []) :=
  unknown_op_generic_fallback_no_children (.baseFormula "distance_stream" [])
    rfl (by decide)

/-- C4 counterexample: the IR→backend stage translates an IR node with
the unrecognized opcode `distance_stream` to
`makeCall("distance_stream", …)` — the opcode passes through under its
own name, NOT as `makeCall("external", …)`; `"external"` is emitted only
for `ExternalFunctionTerm` leaves. -/
theorem backend_fallback_not_external_cex :
    compile_to_ls [] (.functionTerm "distance_stream" [])
      = .ok (.call "distance_stream" [])
    ∧ LSNode.call "distance_stream" [] ≠ LSNode.call "external" [] := by
  refine ⟨rfl, ?_⟩
  simp

/-- C4 (amended): every IR node whose opcode is outside the recognized
set is translated by `makeCall(opcode, translatedChildren)` (with
`"unknown"` substituted only for an empty opcode), and translation never
raises merely because the opcode is unfamiliar: it succeeds whenever the
children translate. -/
theorem backend_fallback_passthrough_opcode {B : Type} (hk : LSHooks B)
    (fn : String) (args : List IRTerm) (cs : List B)
    (hfn : fn ∉ recognizedOpcodes) (hne : fn ≠ "")
    (h : lsCompileArgs hk args = .ok cs) :
    lsCompileNode hk (.functionTerm fn args) = .ok (hk.make_call fn cs) := by
  have e : lsCompileNode hk (.functionTerm fn args)
      = if fn ∈ recognizedOpcodes then lsCompileKnown hk fn args
        else Except.bind (lsCompileArgs hk args) (fun cs2 =>
          Except.ok (hk.make_call (if fn = "" then "unknown" else fn) cs2)) := rfl
  rw [e, if_neg hfn, h, if_neg hne]
  rfl

/-- Witness for C4's amended theorem at opcode `distance_stream` with no
children. -/
theorem backend_fallback_passthrough_opcode_witness :
    lsCompileNode (defaultHooks noResolve) (.functionTerm "distance_stream" [])
      = .ok (.call "distance_stream" []) :=
  backend_fallback_passthrough_opcode (defaultHooks noResolve)
    "distance_stream" [] [] (by decide) (by decide) rfl

/-- C5 (confirmed): `SourceResolver.__call__` tries the schema-identity
key `(class object, field)` first, then the schema-name key
`(class.__name__, field)`, and otherwise raises (`KeyError`, this code
base's ResolutionError) — it never substitutes a default: whenever it
returns a node at all, that node comes from one of the two mapping
entries, with the identity entry taking precedence. -/
theorem source_resolution_order {B : Type} (m : SourceMap B) (st : StreamType)
    (field : String) :
    (∀ v, SourceMap.lookup m (.byType st, field) = some v →
        SourceResolver.call m st field = .ok v)
    ∧ (SourceMap.lookup m (.byType st, field) = none →
        ∀ v, SourceMap.lookup m (.byName st.name, field) = some v →
          SourceResolver.call m st field = .ok v)
    ∧ (SourceMap.lookup m (.byType st, field) = none →
        SourceMap.lookup m (.byName st.name, field) = none →
          SourceResolver.call m st field = .error "KeyError") := by
  refine ⟨fun v hv => ?_, fun h0 v hv => ?_, fun h0 h1 => ?_⟩
  · simp [SourceResolver.call, hv]
  · simp [SourceResolver.call, h0, hv]
  · simp [SourceResolver.call, h0, h1]

/-- Witness for C5 on a mapping holding an identity key and name keys:
identity lookup wins for `f` (the shadowed name entry `2` is NOT
returned), name lookup serves `g` when identity misses, and the
undeclared `h` raises. -/
theorem source_resolution_order_witness :
    SourceResolver.call wMap wSchema "f" = .ok (.constN (.vint 1))
    ∧ SourceResolver.call wMap wSchema "g" = .ok (.constN (.vint 3))
    ∧ SourceResolver.call wMap wSchema "h" = .error "KeyError" :=
  ⟨(source_resolution_order wMap wSchema "f").1 _ rfl,
   (source_resolution_order wMap wSchema "g").2.1 rfl _ rfl,
   (source_resolution_order wMap wSchema "h").2.2 rfl rfl⟩

/-- C6 (confirmed): Formula→IR compilation is deterministic — it is a
pure function of the input tree (the embedding of `CircuitCompiler` is
stateless because the Python class reads and writes no instance or
global state), so structurally equal formula trees compile to
structurally equal IR trees. -/
theorem compile_deterministic (f g : Formula) (h : f = g) :
    Formula.compile f = Formula.compile g := by rw [h]

/-- Witness for C6 at the end-to-end formula. -/
theorem compile_deterministic_witness :
    Formula.compile e2eFormula = Formula.compile e2eFormula :=
  compile_deterministic e2eFormula e2eFormula rfl

/-- C7 (confirmed): `MultiplexOp(output, id, eos)` compiles to a
`multiplex` IR node with exactly three children in that order, the first
being precisely the standalone compilation of the output template
(preserved unmodified, not restructured); the IR→backend stage keeps the
same three-child order. -/
theorem multiplex_three_children_ordered {B : Type} (hk : LSHooks B)
    (o i e : Formula) (o' i' e' : IRTerm) (a b c : IRTerm) (a' b' c' : B)
    (ho : compileOperand o = .ok o') (hi : compileOperand i = .ok i')
    (he : compileOperand e = .ok e')
    (ha : lsCompileNode hk a = .ok a') (hb : lsCompileNode hk b = .ok b')
    (hc : lsCompileNode hk c = .ok c') :
    Formula.compile (.multiplexFormula o i e)
      = .ok (.functionTerm "multiplex" [o', i', e'])
    ∧ lsCompileNode hk (.functionTerm "multiplex" [a, b, c])
      = .ok (hk.make_call "multiplex" [a', b', c']) := by
  constructor
  · have e1 : Formula.compile (.multiplexFormula o i e)
        = Except.bind (compileOperand o) (fun x =>
            Except.bind (compileOperand i) (fun y =>
              Except.bind (compileOperand e) (fun z =>
                Except.ok (.functionTerm "multiplex" [x, y, z])))) := rfl
    rw [e1, ho, hi, he]
    rfl
  · have e2 : lsCompileNode hk (.functionTerm "multiplex" [a, b, c])
        = Except.bind (lsCompileNode hk a) (fun x =>
            Except.bind (lsCompileNode hk b) (fun y =>
              Except.bind (lsCompileNode hk c) (fun z =>
                Except.ok (hk.make_call "multiplex" [x, y, z])))) := rfl
    rw [e2, ha, hb, hc]
    rfl

/-- Witness for C7 with `GlobalTime` templates and constant IR children. -/
theorem multiplex_three_children_ordered_witness :
    Formula.compile (.multiplexFormula globalTime globalTime globalTime)
      = .ok (.functionTerm "multiplex"
          [.functionTerm "global_time" [], .functionTerm "global_time" [],
           .functionTerm "global_time" []])
    ∧ lsCompileNode (defaultHooks noResolve)
        (.functionTerm "multiplex"
          [.constantTerm (.vint 1), .constantTerm (.vint 2),
           .constantTerm (.vint 3)])
      = .ok (.call "multiplex"
          [.constN (.vint 1), .constN (.vint 2), .constN (.vint 3)]) :=
  multiplex_three_children_ordered (defaultHooks noResolve)
    globalTime globalTime globalTime
    (.functionTerm "global_time" []) (.functionTerm "global_time" [])
    (.functionTerm "global_time" [])
    (.constantTerm (.vint 1)) (.constantTerm (.vint 2)) (.constantTerm (.vint 3))
    (.constN (.vint 1)) (.constN (.vint 2)) (.constN (.vint 3))
    rfl rfl rfl rfl rfl rfl

/-- C8 (confirmed): for every target and every integer offset `o`,
`IndexOp(target, o)` built by `Formula.__getitem__` compiles to an
`index` IR node whose first child is the compiled target and whose
second child is `Constant(o)`; construction validates nothing, so
negative, non-negative and large-magnitude offsets alike pass through
untouched rather than raising at build time. -/
theorem index_offset_passthrough (t : Formula) (o : ℤ) (t' : IRTerm)
    (h : compileOperand t = .ok t') :
    Formula.compile (t.getitem o)
      = .ok (.functionTerm "index" [t', .constantTerm (.vint o)]) := by
  have e1 : Formula.compile (t.getitem o)
      = Except.bind (compileOperand t) (fun x =>
          Except.ok (.functionTerm "index" [x, .constantTerm (.vint o)])) := rfl
  rw [e1, h]
  rfl

/-- Witness for C8 at offsets `-1`, `-2` and the unvalidated `5`. -/
theorem index_offset_passthrough_witness :
    Formula.compile ((Formula.baseFormula "distance_stream" []).getitem (-1))
      = .ok (.functionTerm "index"
          [.functionTerm "distance_stream" [], .constantTerm (.vint (-1))])
    ∧ Formula.compile ((Formula.baseFormula "distance_stream" []).getitem (-2))
      = .ok (.functionTerm "index"
          [.functionTerm "distance_stream" [], .constantTerm (.vint (-2))])
    ∧ Formula.compile ((Formula.baseFormula "distance_stream" []).getitem 5)
      = .ok (.functionTerm "index"
          [.functionTerm "distance_stream" [], .constantTerm (.vint 5)]) :=
  ⟨index_offset_passthrough _ (-1) _ rfl, index_offset_passthrough _ (-2) _ rfl,
   index_offset_passthrough _ 5 _ rfl⟩

/-- C9 (confirmed): on a stream built from a schema declaration,
attribute access for a name that reaches `__getattr__` yields
`FieldAccess(self, name)` when the name is a declared field and raises
`AttributeError` otherwise, at formula-construction time.  (Python
resolves the instance attributes `type`/`_fields` before `__getattr__`;
the model covers the names that reach `__getattr__`, which is where the
cited code decides.) -/
theorem getattr_declared_fields (σ : Store) (t : StreamType) (name : String) :
    (name ∈ t.annotations.map Prod.fst →
      InputStream.getattr (InputStream.init σ t).1 (InputStream.init σ t).2 name
        = .ok (.fieldAccess (InputStream.init σ t).2 name))
    ∧ (name ∉ t.annotations.map Prod.fst →
      InputStream.getattr (InputStream.init σ t).1 (InputStream.init σ t).2 name
        = .error "AttributeError") := by
  have hread : readRef (σ ++ [t.annotations]) σ.length = t.annotations :=
    readRef_append_self σ t.annotations
  constructor <;> intro h
  · have hk : dictHasKey t.annotations name = true := (dictHasKey_iff _ _).mpr h
    simp [InputStream.getattr, InputStream.init, hread, hk]
  · have hk : dictHasKey t.annotations name = false := by
      cases hcase : dictHasKey t.annotations name with
      | false => rfl
      | true => exact absurd ((dictHasKey_iff _ _).mp hcase) h
    simp [InputStream.getattr, InputStream.init, hread, hk]

/-- Witness for C9 on the `IntruderType` schema: the declared `lat`
resolves to a `FieldAccess`, the undeclared `speed` raises. -/
theorem getattr_declared_fields_witness :
    InputStream.getattr (InputStream.init [] IntruderType).1
        (InputStream.init [] IntruderType).2 "lat"
      = .ok (.fieldAccess (InputStream.init [] IntruderType).2 "lat")
    ∧ InputStream.getattr (InputStream.init [] IntruderType).1
        (InputStream.init [] IntruderType).2 "speed"
      = .error "AttributeError" :=
  ⟨(getattr_declared_fields [] IntruderType "lat").1 (by decide),
   (getattr_declared_fields [] IntruderType "speed").2 (by decide)⟩

/-- C10 (confirmed): `timestamp(stream)` returns a new
`TimestampedStream` whose field dict is exactly the original stream's
fields followed by a `time` field of type `float`, stored in a freshly
allocated dict (a different reference), while the original stream's
field dict is left unchanged.  Hypotheses: the original is a live stream
built from its schema (its dict reference is valid and holds the
declared fields), the declared field names are distinct (Python dict
keys always are), and `time` was not already declared. -/
theorem timestamp_adds_time_field_frame (σ : Store) (orig : InputStream)
    (h1 : orig.fieldsRef < σ.length)
    (h2 : readRef σ orig.fieldsRef = orig.type.annotations)
    (h3 : (orig.type.annotations.map Prod.fst).Nodup)
    (h4 : dictHasKey orig.type.annotations "time" = false) :
    readRef (timestamp σ orig).1 (timestamp σ orig).2.fieldsRef
      = readRef σ orig.fieldsRef ++ [("time", PyType.pfloat)]
    ∧ readRef (timestamp σ orig).1 orig.fieldsRef = readRef σ orig.fieldsRef
    ∧ (timestamp σ orig).2.fieldsRef ≠ orig.fieldsRef
    ∧ (timestamp σ orig).2.type = orig.type := by
  have hne : σ.length ≠ orig.fieldsRef := Nat.ne_of_gt h1
  simp only [timestamp, TimestampedStream.init]
  rw [readRef_append_self, readRef_append_lt σ _ _ h1, h2,
    dictUpdate_self _ h3]
  have hσ₂ : readRef
      (writeRef (σ ++ [orig.type.annotations]) σ.length orig.type.annotations)
      σ.length = orig.type.annotations :=
    readRef_writeRef_self _ _ _ (by simp)
  rw [hσ₂, dictSet_new_key _ _ _ h4]
  refine ⟨?_, ?_, hne, by trivial⟩
  · exact readRef_writeRef_self _ _ _ (by simp [writeRef])
  · rw [readRef_writeRef_ne _ _ _ _ hne, readRef_writeRef_ne _ _ _ _ hne,
      readRef_append_lt σ _ _ h1]
    exact h2

/-- Witness for C10: timestamping a live one-field `lat` stream yields
fields `lat` then `time: float` in a fresh dict and leaves the
original's dict untouched. -/
theorem timestamp_adds_time_field_frame_witness :
    readRef (timestamp [[("lat", PyType.pfloat)]]
        ⟨⟨"I", 0, [("lat", PyType.pfloat)]⟩, 0⟩).1
      (timestamp [[("lat", PyType.pfloat)]]
        ⟨⟨"I", 0, [("lat", PyType.pfloat)]⟩, 0⟩).2.fieldsRef
      = readRef [[("lat", PyType.pfloat)]] 0 ++ [("time", PyType.pfloat)]
    ∧ readRef (timestamp [[("lat", PyType.pfloat)]]
        ⟨⟨"I", 0, [("lat", PyType.pfloat)]⟩, 0⟩).1 0
      = readRef [[("lat", PyType.pfloat)]] 0
    ∧ (timestamp [[("lat", PyType.pfloat)]]
        ⟨⟨"I", 0, [("lat", PyType.pfloat)]⟩, 0⟩).2.fieldsRef ≠ 0
    ∧ (timestamp [[("lat", PyType.pfloat)]]
        ⟨⟨"I", 0, [("lat", PyType.pfloat)]⟩, 0⟩).2.type
      = ⟨"I", 0, [("lat", PyType.pfloat)]⟩ :=
  timestamp_adds_time_field_frame [[("lat", PyType.pfloat)]]
    ⟨⟨"I", 0, [("lat", PyType.pfloat)]⟩, 0⟩
    (by decide) rfl (by decide) (by decide)
